import Mathlib

/-!
Verification of the esp32-presence firmware's Presence Link Supervisor.

This file shallowly embeds the relevant parts of the repository's source
(src/src/main.rs, src/src/mqtt.rs, src/src/wifi.rs, src/src/utils.rs) and
proves properties of the embedded definitions.

Modelling conventions:
* Machine integers are modelled as Int (i8, i32) or Nat (u8, u32, u64).
  The only arithmetic on a validated configuration that could wrap is the
  i8 multiplication in WiFi::connect; it is modelled with an explicit wrap.
* The f32 arithmetic of utils.rs map_range is modelled by exact rational
  arithmetic; the Rust "as u8" cast truncates toward zero and saturates.
* The blocking control loop of main.rs State::tick is modelled as a pure
  step function over an explicit state, parameterised by the per-tick
  behaviour of the collaborators (radio, broker runtime, clock).  The
  effects the supervisor performs during one tick (LED writes, connect and
  disconnect calls, publishes, sleeps) are recorded as an ordered list.
* unix_seconds() is a monotone Nat clock; all reads of it within one tick
  return the same value (the non-sleeping work of a tick takes well under
  one second), and each tick begins by sleeping one second.  The u32
  subtractions in main.rs are performed on monotonically nondecreasing
  timestamps, so Nat subtraction models them exactly.
* The asynchronous MQTT connectivity callback of mqtt.rs is serialised at
  tick boundaries: at most one Connected/Disconnected event is delivered
  between two consecutive destructive reads of the latch, matching the
  mutex-guarded latch discipline described by the specification.
* BlockingWifi::connect and wait_netif_up (external esp-idf-svc calls made
  by WiFi::connect) either fail -- a timeout or radio error, surfaced as an
  Err -- or succeed, in which case the link is up when connect() returns,
  so the while loop of State::tick performs at most one connect call per
  tick.
-/

namespace Esp32Presence

/-! ## utils.rs -/

/-- Rust f32::clamp for lo <= hi: max lo (min x hi). -/
def rust_clamp (x lo hi : ℚ) : ℚ := max lo (min x hi)

/-- Rust "as u8" cast from f32: truncates toward zero and saturates into
[0, 255].  Every nonpositive value truncates or saturates to 0. -/
def f32_as_u8 (x : ℚ) : ℕ := if x ≤ 0 then 0 else min 255 (Int.toNat ⌊x⌋)

/-- utils.rs map_range: clamp the input into [in_min, in_max], linearly
interpolate into [out_min, out_max], clamp, and cast to u8. -/
def map_range (x in_min in_max out_min out_max : ℚ) : ℕ :=
  let xc := rust_clamp x in_min in_max
  let mapped := (xc - in_min) * (out_max - out_min) / (in_max - in_min) + out_min
  f32_as_u8 (rust_clamp mapped out_min out_max)

/-! ## LED colors (main.rs) and the WS2812 write -/

structure RGB8 where
  r : ℕ
  g : ℕ
  b : ℕ
deriving DecidableEq

/-- u8::saturating_mul. -/
def u8_saturating_mul (a k : ℕ) : ℕ := min (a * k) 255

/-- The color actually written by State::set_led_with_brightness: each base
channel saturating-multiplied by the brightness. -/
def scale (c : RGB8) (k : ℕ) : RGB8 :=
  ⟨u8_saturating_mul c.r k, u8_saturating_mul c.g k, u8_saturating_mul c.b k⟩

def DEFAULT_BRIGHTNESS : ℕ := 5
def CLR_WIFI_SCAN : RGB8 := ⟨0, 0, 1⟩
def CLR_MQTT_CONNECTING : RGB8 := ⟨1, 0, 1⟩
def CLR_SLEEPING : RGB8 := ⟨1, 1, 0⟩
def CLR_MQTT_PUBLISHED : RGB8 := ⟨0, 1, 1⟩
def CLR_ALL_CONNECTED : RGB8 := ⟨0, 1, 0⟩
def CLR_WIFI_WEAK_SIGNAL : RGB8 := ⟨1, 1, 1⟩
def CLR_FATAL_ERR : RGB8 := ⟨100, 0, 0⟩

/-! ## mqtt.rs: the connectivity latch -/

structure MqttConnectionStatus where
  is_connected : Bool
  was_connected : Bool
deriving DecidableEq

/-- MqttConnectionStatus::was_connected (the destructive read): returns the
stored was_connected value and advances it to the current is_connected. -/
def MqttConnectionStatus.read_was_connected (s : MqttConnectionStatus) :
    Bool × MqttConnectionStatus :=
  (s.was_connected, { s with was_connected := s.is_connected })

/-- MqttConnectionStatus::set_connected, invoked by the MQTT event callback
on Connected / Disconnected events. -/
def MqttConnectionStatus.set_connected (s : MqttConnectionStatus) (connected : Bool) :
    MqttConnectionStatus :=
  { is_connected := connected, was_connected := s.is_connected }

/-! ## wifi.rs: authentication method selection (WiFi::new) -/

inductive AuthMethod where
  | none
  | wpa
  | wpa2Personal
  | wpaWpa2Personal
  | wpa3Personal
  | wpa2Wpa3Personal
deriving DecidableEq

/-- The auth-method selection at the top of WiFi::new: an empty password
forces AuthMethod::None, otherwise the configured string is matched against
the supported enumeration and anything else is an error. -/
def auth_method_of (wifi_password wifi_auth_method : String) :
    Except String AuthMethod :=
  if wifi_password = "" then .ok .none
  else
    match wifi_auth_method with
    | "None" => .ok .none
    | "WPA" => .ok .wpa
    | "WPA2Personal" => .ok .wpa2Personal
    | "WPAWPA2Personal" => .ok .wpaWpa2Personal
    | "WPA3Personal" => .ok .wpa3Personal
    | "WPA2WPA3Personal" => .ok .wpa2Wpa3Personal
    | _ => .error "Unsupported WiFi authentication method"

/-! ## wifi.rs: transmit power (the block inside WiFi::connect) -/

/-- Two's-complement wrap into i8 range, the release-mode behaviour of the
i8 multiplication in WiFi::connect. -/
def wrap_i8 (x : ℤ) : ℤ := (x + 128) % 256 - 128

/-- esp_wifi_set_max_tx_power: the requested power is in units of 0.25 dBm
and the device-legal range is [8, 84]; out-of-range requests return
ESP_ERR_INVALID_ARG and leave the power unchanged.  Returns the resulting
radio power and whether the request was accepted. -/
def esp_wifi_set_max_tx_power (current requested : ℤ) : ℤ × Bool :=
  if 8 ≤ requested ∧ requested ≤ 84 then (requested, true) else (current, false)

/-- The transmit-power step performed on every WiFi::connect call
(wifi.rs lines 76-87): when the configured max power is not the i8::MIN
"unbounded" sentinel, request max_tx_power * 4 quarter-dBm; an invalid
request is logged and ignored. -/
def connect_set_tx_power (max_tx_power current : ℤ) : ℤ :=
  if max_tx_power ≠ -128 then
    (esp_wifi_set_max_tx_power current (wrap_i8 (max_tx_power * 4))).1
  else current

/-! ## main.rs: configuration, state, per-tick environment -/

/-- The configuration fields consulted by State::tick (toml_cfg Config). -/
structure Config where
  wifi_disconnect_rssi : ℤ
  wifi_disconnect_seconds : ℕ
  wifi_ignore_rssi_seconds : ℕ
  mqtt_reconnect_timeout : ℕ
  wifi_max_tx_power : ℤ
deriving DecidableEq

/-- The supervisor state of main.rs: the struct State's own fields plus the
observable state of its collaborators (link up or down, MQTT client created,
latch contents) and the clock. -/
structure St where
  wifiConnected : Bool
  mqttHasClient : Bool
  latch : MqttConnectionStatus
  wifi_connected_time : Option ℕ
  wifi_disconn_rssi_start : Option ℕ
  now : ℕ
deriving DecidableEq

/-- Per-tick behaviour of the collaborators:
latchUpdate -- the MQTT connectivity event (if any) delivered by the
callback since the previous tick; rssi -- the result of get_rssi during
this tick (none models an unavailable reading); connectOk / createClientOk /
publishOk -- whether WiFi::connect, Mqtt::create_client and Mqtt::publish
succeed if called this tick. -/
structure Env where
  latchUpdate : Option Bool
  rssi : Option ℤ
  connectOk : Bool
  createClientOk : Bool
  publishOk : Bool
deriving DecidableEq

/-- An environment in which every fallible collaborator call succeeds. -/
def goodEnv (u : Option Bool) (r : Option ℤ) : Env := ⟨u, r, true, true, true⟩

/-- The calls a tick makes to its collaborators, in order. -/
inductive Effect where
  | sleep (secs : ℕ)
  | led (color : RGB8)
  | wifiConnect
  | createClient
  | publish
  | mqttDisconnect
  | wifiDisconnect
deriving DecidableEq

/-- The errors a tick can propagate; main's loop treats every one of them
as fatal. -/
inductive Fatal where
  | connectError
  | createClientError
  | publishError
deriving DecidableEq

/-- Number of Mqtt::publish calls in a tick's effect list. -/
def publishes (fx : List Effect) : ℕ := fx.count Effect.publish

/-- Apply the (at most one) MQTT connectivity-callback event delivered
since the previous tick to the latch. -/
def applyLatchUpdate (u : Option Bool) (l : MqttConnectionStatus) :
    MqttConnectionStatus :=
  match u with
  | some b => l.set_connected b
  | none => l

/-- State::set_led: look up the RSSI and derive the brightness by
map_range(rssi, -100, -10, 2, 30), falling back to DEFAULT_BRIGHTNESS when
the RSSI is unavailable. -/
def brightness_of (rssi : Option ℤ) : ℕ :=
  match rssi with
  | some r => map_range (r : ℚ) (-100) (-10) 2 30
  | none => DEFAULT_BRIGHTNESS

/-- The LED write State::set_led performs for a given base color. -/
def set_led (rssi : Option ℤ) (base : RGB8) : Effect :=
  Effect.led (scale base (brightness_of rssi))

/-- State::disconnect_and_wait: disconnect MQTT if its latch shows
connected, tear the link down (WiFi::disconnect and Mqtt::disconnect are
not under src/; modelled from the spec: "disconnect() tears down
association, idempotent if already down"), show the sleeping color at the
default brightness, and block for mqtt_reconnect_timeout seconds. -/
def disconnect_and_wait (cfg : Config) (s : St) : St × List Effect :=
  let fx : List Effect := if s.latch.is_connected then [.mqttDisconnect] else []
  ({ s with wifiConnected := false, now := s.now + cfg.mqtt_reconnect_timeout },
   fx ++ [.wifiDisconnect, .led (scale CLR_SLEEPING DEFAULT_BRIGHTNESS),
          .sleep cfg.mqtt_reconnect_timeout])

/-- The link-acquisition loop at the top of State::tick: while the link is
down, show the scanning color and call WiFi::connect (propagating its
errors with ?), then record wifi_connected_time.  A successful connect()
returns with the link up, so the loop body runs at most once. -/
def acquire_link (env : Env) (s : St) (fx : List Effect) :
    Except Fatal (St × List Effect) :=
  if s.wifiConnected then .ok (s, fx)
  else
    let fx := fx ++ [.led (scale CLR_WIFI_SCAN DEFAULT_BRIGHTNESS), .wifiConnect]
    if env.connectOk then
      .ok ({ s with wifiConnected := true, wifi_connected_time := some s.now }, fx)
    else .error Fatal.connectError

/-- The lazy Mqtt::create_client call of State::tick (propagating its
errors with ?). -/
def ensure_client (env : Env) (s : St) (fx : List Effect) :
    Except Fatal (St × List Effect) :=
  if s.mqttHasClient then .ok (s, fx)
  else if env.createClientOk then
    .ok ({ s with mqttHasClient := true }, fx ++ [.createClient])
  else .error Fatal.createClientError

/-- The steady-state RSSI monitoring tail of State::tick (main.rs lines
133-163): substitute i32::MAX for an unavailable RSSI; a sample strictly
above the threshold clears the weak-signal timer and shows the
fully-connected color; inside the post-connect ignore window nothing else
happens; otherwise show the weak-signal color, start the weak-signal timer
if unstarted, and run disconnect_and_wait once the weak condition has
persisted strictly longer than wifi_disconnect_seconds. -/
def steady_monitor (cfg : Config) (env : Env) (s : St) (fx : List Effect) :
    Except Fatal (St × List Effect) :=
  let rssi := env.rssi.getD 2147483647
  if cfg.wifi_disconnect_rssi < rssi then
    .ok ({ s with wifi_disconn_rssi_start := none },
         fx ++ [set_led env.rssi CLR_ALL_CONNECTED])
  else
    let inIgnoreWindow : Bool :=
      match s.wifi_connected_time with
      | some ct => s.now - ct ≤ cfg.wifi_ignore_rssi_seconds
      | none => false
    if inIgnoreWindow then .ok (s, fx)
    else
      let fx := fx ++ [set_led env.rssi CLR_WIFI_WEAK_SIGNAL]
      let (weakStart, s) :=
        match s.wifi_disconn_rssi_start with
        | some start => (start, s)
        | none => (s.now, { s with wifi_disconn_rssi_start := some s.now })
      if cfg.wifi_disconnect_seconds < s.now - weakStart then
        let s := { s with wifi_disconn_rssi_start := none }
        let (s, dfx) := disconnect_and_wait cfg s
        .ok (s, fx ++ dfx)
      else .ok (s, fx)

/-- One iteration of main's loop body (State::tick): sleep the one-second
pace, deliver any pending connectivity-callback event to the latch, then
run link acquisition, lazy client creation, the destructive edge read with
its publish / connecting / session-loss branches, and steady-state RSSI
monitoring, in source order. -/
def tick (cfg : Config) (env : Env) (st : St) : Except Fatal (St × List Effect) :=
  let s0 : St := { st with latch := applyLatchUpdate env.latchUpdate st.latch,
                           now := st.now + 1 }
  match acquire_link env s0 [.sleep 1] with
  | .error e => .error e
  | .ok (s1, fx1) =>
    match ensure_client env s1 fx1 with
    | .error e => .error e
    | .ok (s2, fx2) =>
      let (wasConn, latch1) := s2.latch.read_was_connected
      let s3 : St := { s2 with latch := latch1 }
      if wasConn = false then
        if s3.latch.is_connected then
          if env.publishOk then
            .ok (s3, fx2 ++ [.publish, set_led env.rssi CLR_MQTT_PUBLISHED])
          else .error Fatal.publishError
        else .ok (s3, fx2 ++ [set_led env.rssi CLR_MQTT_CONNECTING])
      else if s3.latch.is_connected = false then
        let (s4, dfx) := disconnect_and_wait cfg s3
        .ok (s4, fx2 ++ dfx)
      else
        steady_monitor cfg env s3 fx2

/-- Run a sequence of ticks, collecting each tick's effect list. -/
def run (cfg : Config) (s : St) : List Env → Except Fatal (St × List (List Effect))
  | [] => .ok (s, [])
  | e :: es =>
    match tick cfg e s with
    | .error f => .error f
    | .ok (s1, fx) =>
      match run cfg s1 es with
      | .error f => .error f
      | .ok (s2, fxs) => .ok (s2, fx :: fxs)

/-- The state reached after i ticks of the all-weak scenario: the link came
up at time t0 with the session already connected, every sample is weak, so
the first wifi_ignore_rssi_seconds + 1 ticks are inside the ignore window
(the window check uses a non-strict comparison) and the weak-signal timer
starts on the first monitored tick, at time
t0 + wifi_ignore_rssi_seconds + 1. -/
def weakStateAt (cfg : Config) (t0 i : ℕ) : St :=
  ⟨true, true, ⟨true, true⟩, some t0,
   if i ≤ cfg.wifi_ignore_rssi_seconds then none
   else some (t0 + cfg.wifi_ignore_rssi_seconds + 1),
   t0 + i⟩

/-- The outcome of one iteration of main's loop: either the tick succeeded
and the loop continues from the new state, or the error is logged, the
fatal color is shown at brightness 1, the loop sleeps 5 seconds and halts
permanently (break). -/
inductive LoopOutcome where
  | next (s : St) (fx : List Effect)
  | halted (fx : List Effect)
deriving DecidableEq

/-- One iteration of the loop in main(): any tick error is fatal. -/
def loop_step (cfg : Config) (env : Env) (s : St) : LoopOutcome :=
  match tick cfg env s with
  | .ok (s1, fx) => .next s1 fx
  | .error _ => .halted [.led (scale CLR_FATAL_ERR 1), .sleep 5]

/-! ## Theorems -/

/-- C7: reading the connectivity latch via was_connected is destructive: it
returns the connectivity value held since the previous read, advances the
stored previous value to the current is_connected value (leaving
is_connected itself untouched), and with no intervening callback update a
second consecutive read returns the is_connected value that was current at
the first read. -/
theorem c7_latch_read_destructive (s : MqttConnectionStatus) :
    s.read_was_connected.1 = s.was_connected ∧
    s.read_was_connected.2.was_connected = s.is_connected ∧
    s.read_was_connected.2.is_connected = s.is_connected ∧
    s.read_was_connected.2.read_was_connected.1 = s.is_connected := by
  simp [MqttConnectionStatus.read_was_connected]

/-- C10: whenever the WiFi passphrase is empty, WiFi::new selects open
authentication (AuthMethod::None) regardless of the configured
authentication-method string, and never returns the
unsupported-authentication-method error. -/
theorem c10_empty_password_open_auth (method : String) :
    auth_method_of "" method = .ok AuthMethod.none ∧
    ∀ e, auth_method_of "" method ≠ .error e := by
  simp [auth_method_of]

/-- C4 counterexample: the code has no grace-period gating at all -- the
transmit-power block inside WiFi::connect runs on every connect attempt.
Starting from a conservative 8 quarter-dBm (2 dBm) with a configured
maximum of 20 dBm, the radio power right after the very first connect
attempt (zero seconds since power-on, so no grace period can have elapsed)
is already 80 quarter-dBm, not the conservative starting value. -/
theorem c4_counterexample :
    connect_set_tx_power 20 8 = 80 ∧ (80 : ℤ) ≠ 8 := by decide

/-- C4 (amended): the configured maximum transmit power (times 4, in
quarter-dBm) is applied immediately on every connect attempt whenever the
configuration is build-valid (2..=20 dBm), with no grace-period gating; and
the power set on the radio never exceeds the device ceiling of 84
quarter-dBm, because esp_wifi_set_max_tx_power rejects out-of-range
requests and leaves the power unchanged. -/
theorem c4_tx_power_immediate_and_bounded :
    (∀ maxTx current : ℤ, current ≤ 84 → connect_set_tx_power maxTx current ≤ 84) ∧
    (∀ maxTx current : ℤ, 2 ≤ maxTx → maxTx ≤ 20 →
      connect_set_tx_power maxTx current = maxTx * 4) := by
  constructor
  · intro maxTx current h
    unfold connect_set_tx_power esp_wifi_set_max_tx_power wrap_i8
    split_ifs with h1 h2
    · simp only
      omega
    · exact h
    · exact h
  · intro maxTx current h2 h20
    unfold connect_set_tx_power esp_wifi_set_max_tx_power wrap_i8
    split_ifs with h1 h2
    · simp only
      omega
    · exfalso
      omega
    · exfalso
      omega

/-- Witness for c4_tx_power_immediate_and_bounded at the concrete inputs
maxTx = 20 dBm, current = 8 quarter-dBm. -/
theorem c4_witness :
    ((8 : ℤ) ≤ 84 ∧ connect_set_tx_power 20 8 ≤ 84) ∧
    ((2 : ℤ) ≤ 20 ∧ connect_set_tx_power 20 8 = 20 * 4) :=
  ⟨⟨by decide, c4_tx_power_immediate_and_bounded.1 20 8 (by decide)⟩,
   ⟨by decide, c4_tx_power_immediate_and_bounded.2 20 8 (by decide) (by decide)⟩⟩

/-- rust_clamp is the identity on in-range inputs. -/
lemma rust_clamp_eq_self {x lo hi : ℚ} (h1 : lo ≤ x) (h2 : x ≤ hi) :
    rust_clamp x lo hi = x := by
  unfold rust_clamp
  rw [min_eq_left h2, max_eq_right h1]

/-- rust_clamp sends inputs at or below the lower bound to the lower
bound. -/
lemma rust_clamp_eq_lo {x lo hi : ℚ} (h : x ≤ lo) (hlh : lo ≤ hi) :
    rust_clamp x lo hi = lo := by
  unfold rust_clamp
  rw [min_eq_left (le_trans h hlh), max_eq_left h]

/-- rust_clamp sends inputs at or above the upper bound to the upper
bound. -/
lemma rust_clamp_eq_hi {x lo hi : ℚ} (h : hi ≤ x) (hlh : lo ≤ hi) :
    rust_clamp x lo hi = hi := by
  unfold rust_clamp
  rw [min_eq_right h, max_eq_right hlh]

/-- The input clamp of map_range at the RSSI constants lands in
[-100, -10]. -/
lemma rssi_clamp_mem (x : ℚ) :
    -100 ≤ rust_clamp x (-100) (-10) ∧ rust_clamp x (-100) (-10) ≤ -10 := by
  unfold rust_clamp
  exact ⟨le_max_left _ _, max_le (by norm_num) (min_le_right _ _)⟩

/-- The linear interpolation of map_range at the RSSI constants lands in
[2, 30] once the input is clamped. -/
lemma rssi_mapped_bounds (x : ℚ) :
    2 ≤ (rust_clamp x (-100) (-10) + 100) * 28 / 90 + 2 ∧
    (rust_clamp x (-100) (-10) + 100) * 28 / 90 + 2 ≤ 30 := by
  obtain ⟨h1, h2⟩ := rssi_clamp_mem x
  constructor <;> linarith

/-- At the RSSI constants, map_range is exactly the floor of the clamped
linear interpolation: the output clamp and the u8 saturation never act. -/
lemma map_range_rssi_eq (x : ℚ) :
    map_range x (-100) (-10) 2 30 =
      (⌊(rust_clamp x (-100) (-10) + 100) * 28 / 90 + 2⌋).toNat := by
  obtain ⟨hb1, hb2⟩ := rssi_mapped_bounds x
  have e : (rust_clamp x (-100) (-10) - -100) * ((30 : ℚ) - 2) / (-10 - -100) + 2
      = (rust_clamp x (-100) (-10) + 100) * 28 / 90 + 2 := by ring
  simp only [map_range, e]
  rw [rust_clamp_eq_self hb1 hb2]
  unfold f32_as_u8
  rw [if_neg (by linarith)]
  have hf30 : ⌊(rust_clamp x (-100) (-10) + 100) * 28 / 90 + 2⌋ ≤ 30 := by
    have := Int.floor_le_floor hb2
    simpa using this
  rw [min_eq_right]
  omega

/-- map_range at the RSSI constants always lands in [2, 30]. -/
lemma map_range_rssi_bounds (x : ℚ) :
    2 ≤ map_range x (-100) (-10) 2 30 ∧ map_range x (-100) (-10) 2 30 ≤ 30 := by
  obtain ⟨hb1, hb2⟩ := rssi_mapped_bounds x
  rw [map_range_rssi_eq]
  have hf2 : (2 : ℤ) ≤ ⌊(rust_clamp x (-100) (-10) + 100) * 28 / 90 + 2⌋ :=
    Int.le_floor.mpr (by exact_mod_cast hb1)
  have hf30 : ⌊(rust_clamp x (-100) (-10) + 100) * 28 / 90 + 2⌋ ≤ 30 := by
    have := Int.floor_le_floor hb2
    simpa using this
  omega

/-- map_range at the RSSI constants is monotone in the sample. -/
lemma map_range_rssi_mono {x₁ x₂ : ℚ} (h : x₁ ≤ x₂) :
    map_range x₁ (-100) (-10) 2 30 ≤ map_range x₂ (-100) (-10) 2 30 := by
  rw [map_range_rssi_eq, map_range_rssi_eq]
  have hc : rust_clamp x₁ (-100) (-10) ≤ rust_clamp x₂ (-100) (-10) := by
    unfold rust_clamp
    exact max_le_max le_rfl (min_le_min h le_rfl)
  exact Int.toNat_le_toNat (Int.floor_le_floor (by linarith))

/-- C6: the brightness derived from an available RSSI sample is a clamped
linear interpolation: samples at or below the -100 dBm floor give the
minimum brightness 2, samples at or above the -10 dBm ceiling give the
maximum brightness 30, the map is monotone in the sample, in-range samples
give exactly the floor of the linear interpolation, and every brightness
lies in [2, 40] and is never zero. -/
theorem c6_brightness_clamped_interpolation :
    (∀ r : ℤ, r ≤ -100 → brightness_of (some r) = 2) ∧
    (∀ r : ℤ, -10 ≤ r → brightness_of (some r) = 30) ∧
    (∀ r₁ r₂ : ℤ, r₁ ≤ r₂ → brightness_of (some r₁) ≤ brightness_of (some r₂)) ∧
    (∀ r : ℤ, -100 ≤ r → r ≤ -10 →
      (brightness_of (some r) : ℤ) = ⌊((r : ℚ) - -100) * (30 - 2) / (-10 - -100) + 2⌋) ∧
    (∀ r : ℤ, 2 ≤ brightness_of (some r) ∧ brightness_of (some r) ≤ 40 ∧
      brightness_of (some r) ≠ 0) := by
  refine ⟨?_, ?_, ?_, ?_, ?_⟩
  · intro r hr
    have hr' : (r : ℚ) ≤ -100 := by exact_mod_cast hr
    have hcl : rust_clamp (r : ℚ) (-100) (-10) = -100 :=
      rust_clamp_eq_lo hr' (by norm_num)
    simp only [brightness_of, map_range_rssi_eq, hcl]
    norm_num
    decide
  · intro r hr
    have hr' : (-10 : ℚ) ≤ (r : ℚ) := by exact_mod_cast hr
    have hcl : rust_clamp (r : ℚ) (-100) (-10) = -10 :=
      rust_clamp_eq_hi hr' (by norm_num)
    simp only [brightness_of, map_range_rssi_eq, hcl]
    norm_num
    decide
  · intro r₁ r₂ h
    simpa only [brightness_of] using map_range_rssi_mono (by exact_mod_cast h)
  · intro r h1 h2
    have h1' : (-100 : ℚ) ≤ (r : ℚ) := by exact_mod_cast h1
    have h2' : (r : ℚ) ≤ -10 := by exact_mod_cast h2
    have hcl : rust_clamp (r : ℚ) (-100) (-10) = (r : ℚ) :=
      rust_clamp_eq_self h1' h2'
    have e : ((r : ℚ) - -100) * (30 - 2) / (-10 - -100) + 2
        = ((r : ℚ) + 100) * 28 / 90 + 2 := by ring
    simp only [brightness_of, map_range_rssi_eq, hcl, e]
    have hf2 : (2 : ℤ) ≤ ⌊((r : ℚ) + 100) * 28 / 90 + 2⌋ :=
      Int.le_floor.mpr (by push_cast; linarith)
    omega
  · intro r
    have := map_range_rssi_bounds (r : ℚ)
    simp only [brightness_of]
    omega

/-- Witness for c6_brightness_clamped_interpolation at the concrete samples
-120 (below the floor), -5 (above the ceiling), -90 and -50 (monotone), and
-55 (in range). -/
theorem c6_witness :
    ((-120 : ℤ) ≤ -100 ∧ brightness_of (some (-120)) = 2) ∧
    ((-10 : ℤ) ≤ -5 ∧ brightness_of (some (-5)) = 30) ∧
    ((-90 : ℤ) ≤ -50 ∧ brightness_of (some (-90)) ≤ brightness_of (some (-50))) ∧
    ((-100 : ℤ) ≤ -55 ∧ (-55 : ℤ) ≤ -10 ∧
      (brightness_of (some (-55)) : ℤ) =
        ⌊(((-55 : ℤ) : ℚ) - -100) * (30 - 2) / (-10 - -100) + 2⌋) :=
  ⟨⟨by decide, c6_brightness_clamped_interpolation.1 (-120) (by decide)⟩,
   ⟨by decide, c6_brightness_clamped_interpolation.2.1 (-5) (by decide)⟩,
   ⟨by decide, c6_brightness_clamped_interpolation.2.2.1 (-90) (-50) (by decide)⟩,
   ⟨by decide, by decide,
    c6_brightness_clamped_interpolation.2.2.2.1 (-55) (by decide) (by decide)⟩⟩

/-! ### Step lemmas for ticks in the fully-connected steady state
(link up, client created, latch showing connected with no pending
callback event). -/

/-- A steady-state tick whose RSSI sample is strictly above the disconnect
threshold clears the weak-signal timer and shows the fully-connected
color. -/
lemma tick_steady_strong (cfg : Config) (r : ℤ) (ct v : Option ℕ) (n : ℕ)
    (hr : cfg.wifi_disconnect_rssi < r) :
    tick cfg (goodEnv none (some r)) ⟨true, true, ⟨true, true⟩, ct, v, n⟩ =
      .ok (⟨true, true, ⟨true, true⟩, ct, none, n + 1⟩,
           [.sleep 1, set_led (some r) CLR_ALL_CONNECTED]) := by
  simp only [tick, acquire_link, ensure_client, steady_monitor, applyLatchUpdate,
    MqttConnectionStatus.read_was_connected, goodEnv, Option.getD, if_pos hr]
  simp [hr]

/-- A steady-state tick with a weak sample (at or below the threshold)
inside the post-connect ignore window does nothing beyond the pacing
sleep: no LED update, no weak-signal timer change. -/
lemma tick_steady_weak_inwindow (cfg : Config) (r : ℤ) (c : ℕ) (v : Option ℕ) (n : ℕ)
    (hr : r ≤ cfg.wifi_disconnect_rssi)
    (hw : n + 1 - c ≤ cfg.wifi_ignore_rssi_seconds) :
    tick cfg (goodEnv none (some r)) ⟨true, true, ⟨true, true⟩, some c, v, n⟩ =
      .ok (⟨true, true, ⟨true, true⟩, some c, v, n + 1⟩, [.sleep 1]) := by
  simp only [tick, acquire_link, ensure_client, steady_monitor, applyLatchUpdate,
    MqttConnectionStatus.read_was_connected, goodEnv, Option.getD,
    if_neg (not_lt.mpr hr)]
  simp [not_lt.mpr hr, hw]

/-- A steady-state tick with a weak sample past the ignore window that has
not yet persisted past wifi_disconnect_seconds: shows the weak-signal
color and starts the weak-signal timer if unstarted. -/
lemma tick_steady_weak_monitor (cfg : Config) (r : ℤ) (c : ℕ) (v : Option ℕ) (n : ℕ)
    (hr : r ≤ cfg.wifi_disconnect_rssi)
    (hw : cfg.wifi_ignore_rssi_seconds < n + 1 - c)
    (hnt : n + 1 - (v.getD (n + 1)) ≤ cfg.wifi_disconnect_seconds) :
    tick cfg (goodEnv none (some r)) ⟨true, true, ⟨true, true⟩, some c, v, n⟩ =
      .ok (⟨true, true, ⟨true, true⟩, some c, some (v.getD (n + 1)), n + 1⟩,
           [.sleep 1, set_led (some r) CLR_WIFI_WEAK_SIGNAL]) := by
  cases v with
  | none =>
    simp only [tick, acquire_link, ensure_client, steady_monitor, applyLatchUpdate,
      MqttConnectionStatus.read_was_connected, goodEnv, Option.getD]
    simp only [Option.getD] at hnt
    simp [not_lt.mpr hr, not_le.mpr hw, not_lt.mpr hnt]
  | some w =>
    simp only [tick, acquire_link, ensure_client, steady_monitor, applyLatchUpdate,
      MqttConnectionStatus.read_was_connected, goodEnv, Option.getD]
    simp only [Option.getD] at hnt
    simp [not_lt.mpr hr, not_le.mpr hw, not_lt.mpr hnt]

/-- A steady-state tick with a weak sample past the ignore window whose
weak-signal timer has persisted strictly longer than
wifi_disconnect_seconds: shows the weak-signal color, clears the timer and
runs the full disconnect_and_wait reconnection cycle. -/
lemma tick_steady_weak_trigger (cfg : Config) (r : ℤ) (c w n : ℕ)
    (hr : r ≤ cfg.wifi_disconnect_rssi)
    (hw : cfg.wifi_ignore_rssi_seconds < n + 1 - c)
    (ht : cfg.wifi_disconnect_seconds < n + 1 - w) :
    tick cfg (goodEnv none (some r)) ⟨true, true, ⟨true, true⟩, some c, some w, n⟩ =
      .ok (⟨false, true, ⟨true, true⟩, some c, none,
            n + 1 + cfg.mqtt_reconnect_timeout⟩,
           [.sleep 1, set_led (some r) CLR_WIFI_WEAK_SIGNAL, .mqttDisconnect,
            .wifiDisconnect, .led (scale CLR_SLEEPING DEFAULT_BRIGHTNESS),
            .sleep cfg.mqtt_reconnect_timeout]) := by
  simp only [tick, acquire_link, ensure_client, steady_monitor, disconnect_and_wait,
    applyLatchUpdate, MqttConnectionStatus.read_was_connected, goodEnv, Option.getD]
  simp [not_lt.mpr hr, not_le.mpr hw, ht]

/-- C8: on a tick where the latch shows connected-previously but
not-connected-now, the supervisor runs the full reconnection cycle:
it tears the link down unconditionally, shows the sleeping/backoff color at
the default brightness, and blocks for the configured
mqtt_reconnect_timeout before the tick ends -- so before any later tick can
attempt a link connect.  (Mqtt::disconnect is skipped here because the
latch already shows not connected.) -/
theorem c8_session_loss_runs_reconnection_cycle (cfg : Config) (u : Option Bool)
    (r : Option ℤ) (co cc po : Bool) (l : MqttConnectionStatus) (ct v : Option ℕ)
    (n : ℕ) (hl : applyLatchUpdate u l = ⟨false, true⟩) :
    tick cfg ⟨u, r, co, cc, po⟩ ⟨true, true, l, ct, v, n⟩ =
      .ok (⟨false, true, ⟨false, false⟩, ct, v, n + 1 + cfg.mqtt_reconnect_timeout⟩,
           [.sleep 1, .wifiDisconnect, .led (scale CLR_SLEEPING DEFAULT_BRIGHTNESS),
            .sleep cfg.mqtt_reconnect_timeout]) := by
  simp only [tick, acquire_link, ensure_client, disconnect_and_wait,
    MqttConnectionStatus.read_was_connected, hl]
  simp

/-- Witness for c8_session_loss_runs_reconnection_cycle on concrete inputs:
no pending callback event and a latch already holding
is_connected = false, was_connected = true. -/
theorem c8_witness :
    applyLatchUpdate none ⟨false, true⟩ = (⟨false, true⟩ : MqttConnectionStatus) ∧
    tick ⟨-80, 4, 10, 300, 20⟩ ⟨none, none, true, true, true⟩
        ⟨true, true, ⟨false, true⟩, some 2, none, 5⟩ =
      .ok (⟨false, true, ⟨false, false⟩, some 2, none, 5 + 1 + 300⟩,
           [.sleep 1, .wifiDisconnect, .led (scale CLR_SLEEPING DEFAULT_BRIGHTNESS),
            .sleep 300]) :=
  ⟨by decide,
   c8_session_loss_runs_reconnection_cycle ⟨-80, 4, 10, 300, 20⟩ none none
     true true true ⟨false, true⟩ (some 2) none 5 (by decide)⟩

/-- C5 counterexample: with the link down and WiFi::connect failing (e.g. a
connect or address-wait timeout), the tick propagates the error and main's
loop halts in the fatal state -- showing the fatal color and stopping --
instead of logging and retrying on the next tick. -/
theorem c5_counterexample :
    loop_step ⟨-80, 4, 10, 300, 20⟩ ⟨none, none, false, true, true⟩
        ⟨false, true, ⟨false, false⟩, none, none, 0⟩ =
      .halted [.led ⟨100, 0, 0⟩, .sleep 5] := by decide

/-- C5 (amended): a link connect or address-wait timeout is fatal: whenever
the link is down and WiFi::connect fails, State::tick propagates the error
(the ? operator on self.wifi.connect()), and main's loop logs it, shows the
fatal color at brightness 1, sleeps 5 seconds and halts permanently; the
connect is not retried. -/
theorem c5_connect_timeout_is_fatal (cfg : Config) (u : Option Bool) (r : Option ℤ)
    (cc po mc : Bool) (l : MqttConnectionStatus) (ct v : Option ℕ) (n : ℕ) :
    tick cfg ⟨u, r, false, cc, po⟩ ⟨false, mc, l, ct, v, n⟩ =
      .error .connectError ∧
    loop_step cfg ⟨u, r, false, cc, po⟩ ⟨false, mc, l, ct, v, n⟩ =
      .halted [.led (scale CLR_FATAL_ERR 1), .sleep 5] := by
  constructor
  · simp [tick, acquire_link]
  · simp [loop_step, tick, acquire_link]

/-- C9 counterexample: the substituted sample i32::MAX does not exceed a
configured threshold of i32::MAX itself, so with that configuration an
unavailable RSSI does not reset the weak-signal timer (it stays at 90) and
the weak-signal color, not the fully-connected color, is shown. -/
theorem c9_counterexample :
    tick ⟨2147483647, 1000, 5, 7, 20⟩ (goodEnv none none)
        ⟨true, true, ⟨true, true⟩, some 0, some 90, 100⟩ =
      .ok (⟨true, true, ⟨true, true⟩, some 0, some 90, 101⟩,
           [.sleep 1, .led ⟨5, 5, 5⟩]) := by rfl

/-- C9 (amended): for every configured disconnect threshold strictly below
i32::MAX, a failed RSSI query during a steady-state tick substitutes
i32::MAX, which then exceeds the threshold: the tick resets the weak-signal
timer, shows the fully-connected color (at the default brightness, since
set_led also sees the RSSI as unavailable), and never starts or advances a
weak-signal window. -/
theorem c9_unavailable_rssi_treated_healthy (cfg : Config) (ct v : Option ℕ)
    (n : ℕ) (h : cfg.wifi_disconnect_rssi < 2147483647) :
    tick cfg (goodEnv none none) ⟨true, true, ⟨true, true⟩, ct, v, n⟩ =
      .ok (⟨true, true, ⟨true, true⟩, ct, none, n + 1⟩,
           [.sleep 1, set_led none CLR_ALL_CONNECTED]) := by
  simp only [tick, acquire_link, ensure_client, steady_monitor, applyLatchUpdate,
    MqttConnectionStatus.read_was_connected, goodEnv, Option.getD]
  simp [h]

/-- Witness for c9_unavailable_rssi_treated_healthy with the default
threshold of -80 dBm. -/
theorem c9_witness :
    (-80 : ℤ) < 2147483647 ∧
    tick ⟨-80, 4, 10, 300, 20⟩ (goodEnv none none)
        ⟨true, true, ⟨true, true⟩, some 3, some 7, 20⟩ =
      .ok (⟨true, true, ⟨true, true⟩, some 3, none, 20 + 1⟩,
           [.sleep 1, set_led none CLR_ALL_CONNECTED]) :=
  ⟨by decide,
   c9_unavailable_rssi_treated_healthy ⟨-80, 4, 10, 300, 20⟩ (some 3) (some 7) 20
     (by decide)⟩

/-- A tick on which the latch shows not-connected-previously and
not-connected-now publishes nothing and shows the broker-connecting
color. -/
lemma tick_latch_disconnected (cfg : Config) (u : Option Bool) (r : Option ℤ)
    (co cc po : Bool) (l : MqttConnectionStatus) (ct v : Option ℕ) (n : ℕ)
    (hl : applyLatchUpdate u l = ⟨false, false⟩) :
    tick cfg ⟨u, r, co, cc, po⟩ ⟨true, true, l, ct, v, n⟩ =
      .ok (⟨true, true, ⟨false, false⟩, ct, v, n + 1⟩,
           [.sleep 1, set_led r CLR_MQTT_CONNECTING]) := by
  simp only [tick, acquire_link, ensure_client,
    MqttConnectionStatus.read_was_connected, hl]
  simp

/-- A tick on which the latch shows not-connected-previously but
connected-now (the disconnected-to-connected edge) publishes exactly once
and shows the published color. -/
lemma tick_connect_edge (cfg : Config) (u : Option Bool) (r : Option ℤ)
    (co cc : Bool) (l : MqttConnectionStatus) (ct v : Option ℕ) (n : ℕ)
    (hl : applyLatchUpdate u l = ⟨true, false⟩) :
    tick cfg ⟨u, r, co, cc, true⟩ ⟨true, true, l, ct, v, n⟩ =
      .ok (⟨true, true, ⟨true, true⟩, ct, v, n + 1⟩,
           [.sleep 1, .publish, set_led r CLR_MQTT_PUBLISHED]) := by
  simp only [tick, acquire_link, ensure_client,
    MqttConnectionStatus.read_was_connected, hl]
  simp

/-- The steady-state monitoring tail never publishes and never touches the
client or the latch, whichever branch it takes. -/
lemma steady_monitor_no_publish (cfg : Config) (env : Env) (s : St)
    (fx : List Effect) :
    match steady_monitor cfg env s fx with
    | .ok (s', fx') => publishes fx' = publishes fx ∧
        s'.mqttHasClient = s.mqttHasClient ∧ s'.latch = s.latch
    | .error _ => False := by
  cases hsm : steady_monitor cfg env s fx with
  | error e =>
    simp only [steady_monitor, disconnect_and_wait] at hsm
    repeat' split at hsm
    all_goals simp at hsm
  | ok p =>
    obtain ⟨s', fx'⟩ := p
    simp only [steady_monitor, disconnect_and_wait] at hsm
    repeat' split at hsm
    all_goals
      (cases hsm
       by_cases hic : s.latch.is_connected = true <;>
         simp [publishes, set_led, List.count_cons, List.count_append, hic])

/-- While the latch stays connected (it shows connected-previously and
connected-now after the callback update), a tick never publishes, keeps the
client, and leaves the latch showing connected -- regardless of the RSSI
branch taken, including a weak-signal-triggered reconnection cycle. -/
lemma tick_steady_no_publish (cfg : Config) (u : Option Bool) (r : Option ℤ)
    (cc po wc : Bool) (l : MqttConnectionStatus) (ct v : Option ℕ) (n : ℕ)
    (hl : applyLatchUpdate u l = ⟨true, true⟩) :
    match tick cfg ⟨u, r, true, cc, po⟩ ⟨wc, true, l, ct, v, n⟩ with
    | .ok (s', fx) => publishes fx = 0 ∧ s'.mqttHasClient = true ∧
        s'.latch = ⟨true, true⟩
    | .error _ => False := by
  have key : ∀ (s2 : St) (fx2 : List Effect), s2.mqttHasClient = true →
      s2.latch = ⟨true, true⟩ → publishes fx2 = 0 →
      (match steady_monitor cfg ⟨u, r, true, cc, po⟩ s2 fx2 with
       | .ok (s', fx') => publishes fx' = 0 ∧ s'.mqttHasClient = true ∧
           s'.latch = ⟨true, true⟩
       | .error _ => False) := by
    intro s2 fx2 hmc hlatch hp
    have h := steady_monitor_no_publish cfg ⟨u, r, true, cc, po⟩ s2 fx2
    cases hsm : steady_monitor cfg ⟨u, r, true, cc, po⟩ s2 fx2 with
    | error e => rw [hsm] at h; exact h
    | ok p =>
      rw [hsm] at h
      obtain ⟨a, b⟩ := p
      simp only at h ⊢
      exact ⟨by rw [h.1, hp], by rw [h.2.1, hmc], by rw [h.2.2, hlatch]⟩
  cases wc <;>
    simp [tick, acquire_link, ensure_client,
      MqttConnectionStatus.read_was_connected, hl] <;>
    exact key _ _ rfl rfl rfl

/-- C1: over five consecutive ticks on which the connectivity latch
observes disconnected, disconnected, connected, connected, connected (the
hypotheses pin the observed is_connected sequence in terms of the callback
events delivered before each destructive read), the supervisor publishes
exactly once, on the third tick -- the disconnected-to-connected edge --
and never again while the latch stays connected. -/
theorem c1_publish_once_per_connect_edge (cfg : Config)
    (r1 r2 r3 r4 r5 : Option ℤ) (u1 u2 u3 u4 u5 : Option Bool)
    (ct v : Option ℕ) (n : ℕ)
    (h1 : applyLatchUpdate u1 ⟨false, false⟩ = ⟨false, false⟩)
    (h2 : applyLatchUpdate u2 ⟨false, false⟩ = ⟨false, false⟩)
    (h3 : applyLatchUpdate u3 ⟨false, false⟩ = ⟨true, false⟩)
    (h4 : applyLatchUpdate u4 ⟨true, true⟩ = ⟨true, true⟩)
    (h5 : applyLatchUpdate u5 ⟨true, true⟩ = ⟨true, true⟩) :
    ∃ s' f4 f5,
      run cfg ⟨true, true, ⟨false, false⟩, ct, v, n⟩
        [⟨u1, r1, true, true, true⟩, ⟨u2, r2, true, true, true⟩,
         ⟨u3, r3, true, true, true⟩, ⟨u4, r4, true, true, true⟩,
         ⟨u5, r5, true, true, true⟩] =
        .ok (s', [[.sleep 1, set_led r1 CLR_MQTT_CONNECTING],
                  [.sleep 1, set_led r2 CLR_MQTT_CONNECTING],
                  [.sleep 1, .publish, set_led r3 CLR_MQTT_PUBLISHED],
                  f4, f5]) ∧
      publishes [.sleep 1, set_led r1 CLR_MQTT_CONNECTING] = 0 ∧
      publishes [.sleep 1, set_led r2 CLR_MQTT_CONNECTING] = 0 ∧
      publishes [.sleep 1, .publish, set_led r3 CLR_MQTT_PUBLISHED] = 1 ∧
      publishes f4 = 0 ∧ publishes f5 = 0 := by
  have t1 := tick_latch_disconnected cfg u1 r1 true true true ⟨false, false⟩ ct v n h1
  have t2 := tick_latch_disconnected cfg u2 r2 true true true ⟨false, false⟩ ct v
    (n + 1) h2
  have t3 := tick_connect_edge cfg u3 r3 true true ⟨false, false⟩ ct v
    (n + 1 + 1) h3
  have m4 := tick_steady_no_publish cfg u4 r4 true true true ⟨true, true⟩ ct v
    (n + 1 + 1 + 1) h4
  cases h4r : tick cfg ⟨u4, r4, true, true, true⟩
      ⟨true, true, ⟨true, true⟩, ct, v, n + 1 + 1 + 1⟩ with
  | error e => rw [h4r] at m4; exact m4.elim
  | ok p4 =>
    rw [h4r] at m4
    obtain ⟨s4, f4⟩ := p4
    simp only at m4
    obtain ⟨hp4, hmc4, hl4⟩ := m4
    obtain ⟨wc4, mc4, l4, ct4, v4, n4⟩ := s4
    simp only at hmc4 hl4
    subst hmc4 hl4
    have m5 := tick_steady_no_publish cfg u5 r5 true true wc4 ⟨true, true⟩ ct4 v4
      n4 h5
    cases h5r : tick cfg ⟨u5, r5, true, true, true⟩
        ⟨wc4, true, ⟨true, true⟩, ct4, v4, n4⟩ with
    | error e => rw [h5r] at m5; exact m5.elim
    | ok p5 =>
      rw [h5r] at m5
      obtain ⟨s5, f5⟩ := p5
      simp only at m5
      refine ⟨s5, f4, f5, ?_, ?_, ?_, ?_, hp4, m5.1⟩
      · simp only [run, t1, t2, t3, h4r, h5r]
      · simp [publishes, set_led]
      · simp [publishes, set_led]
      · simp [publishes, set_led]

/-- Witness for c1_publish_once_per_connect_edge: the canonical realisation
with a single Connected event delivered before the third tick and no other
callback events. -/
theorem c1_witness :
    applyLatchUpdate none ⟨false, false⟩ = (⟨false, false⟩ : MqttConnectionStatus) ∧
    applyLatchUpdate (some true) ⟨false, false⟩ =
      (⟨true, false⟩ : MqttConnectionStatus) ∧
    applyLatchUpdate none ⟨true, true⟩ = (⟨true, true⟩ : MqttConnectionStatus) ∧
    ∃ s' f4 f5,
      run ⟨-80, 4, 10, 300, 20⟩ ⟨true, true, ⟨false, false⟩, some 0, none, 9⟩
        [⟨none, none, true, true, true⟩, ⟨none, none, true, true, true⟩,
         ⟨some true, none, true, true, true⟩, ⟨none, none, true, true, true⟩,
         ⟨none, none, true, true, true⟩] =
        .ok (s', [[.sleep 1, set_led none CLR_MQTT_CONNECTING],
                  [.sleep 1, set_led none CLR_MQTT_CONNECTING],
                  [.sleep 1, .publish, set_led none CLR_MQTT_PUBLISHED],
                  f4, f5]) ∧
      publishes [.sleep 1, set_led none CLR_MQTT_CONNECTING] = 0 ∧
      publishes [.sleep 1, set_led none CLR_MQTT_CONNECTING] = 0 ∧
      publishes [.sleep 1, .publish, set_led none CLR_MQTT_PUBLISHED] = 1 ∧
      publishes f4 = 0 ∧ publishes f5 = 0 :=
  ⟨by decide, by decide, by decide,
   c1_publish_once_per_connect_edge ⟨-80, 4, 10, 300, 20⟩ none none none none none
     none none (some true) none none (some 0) none 9
     (by decide) (by decide) (by decide) (by decide) (by decide)⟩

/-- Running a concatenation of tick environments is running the pieces in
sequence (stated for successful runs). -/
lemma run_append_ok (cfg : Config) (es es' : List Env) :
    ∀ (s s1 s2 : St) (fxs fxs' : List (List Effect)),
      run cfg s es = .ok (s1, fxs) → run cfg s1 es' = .ok (s2, fxs') →
      run cfg s (es ++ es') = .ok (s2, fxs ++ fxs') := by
  induction es with
  | nil =>
    intro s s1 s2 fxs fxs' h1 h2
    simp only [run] at h1
    obtain ⟨hs, hf⟩ := Prod.mk.injEq .. ▸ Except.ok.inj h1
    subst hs
    subst hf
    simpa using h2
  | cons e es ih =>
    intro s s1 s2 fxs fxs' h1 h2
    simp only [run] at h1 ⊢
    cases htick : tick cfg e s with
    | error f => rw [htick] at h1; exact absurd h1 (by simp)
    | ok p =>
      obtain ⟨sa, fx⟩ := p
      rw [htick] at h1
      simp only at h1
      cases hr : run cfg sa es with
      | error f => rw [hr] at h1; exact absurd h1 (by simp)
      | ok q =>
        obtain ⟨sb, fxsb⟩ := q
        rw [hr] at h1
        simp only [Except.ok.injEq, Prod.mk.injEq] at h1
        obtain ⟨hs1, hfxs⟩ := h1
        subst hs1
        subst hfxs
        simp only [List.append_eq, ih sa sb s2 fxsb fxs' hr h2]
        rfl

/-- One tick of the all-weak scenario advances weakStateAt by one step and
performs no reconnection cycle while i stays at most
wifi_ignore_rssi_seconds + wifi_disconnect_seconds. -/
lemma weak_scenario_step (cfg : Config) (t0 : ℕ) (r : ℤ) (i : ℕ)
    (hr : r ≤ cfg.wifi_disconnect_rssi)
    (hi : i ≤ cfg.wifi_ignore_rssi_seconds + cfg.wifi_disconnect_seconds) :
    tick cfg (goodEnv none (some r)) (weakStateAt cfg t0 i) =
      .ok (weakStateAt cfg t0 (i + 1),
           if i + 1 ≤ cfg.wifi_ignore_rssi_seconds then [Effect.sleep 1]
           else [Effect.sleep 1, set_led (some r) CLR_WIFI_WEAK_SIGNAL]) := by
  by_cases h1 : i + 1 ≤ cfg.wifi_ignore_rssi_seconds
  · have h0 : i ≤ cfg.wifi_ignore_rssi_seconds := by omega
    have hw : t0 + i + 1 - t0 ≤ cfg.wifi_ignore_rssi_seconds := by omega
    simp only [weakStateAt, if_pos h0, if_pos h1]
    exact tick_steady_weak_inwindow cfg r t0 none (t0 + i) hr hw
  · by_cases h2 : i ≤ cfg.wifi_ignore_rssi_seconds
    · have hiG : i = cfg.wifi_ignore_rssi_seconds := by omega
      subst hiG
      have hw : cfg.wifi_ignore_rssi_seconds <
          t0 + cfg.wifi_ignore_rssi_seconds + 1 - t0 := by omega
      have hnt : t0 + cfg.wifi_ignore_rssi_seconds + 1 -
          ((none : Option ℕ).getD (t0 + cfg.wifi_ignore_rssi_seconds + 1)) ≤
          cfg.wifi_disconnect_seconds := by simp
      have h := tick_steady_weak_monitor cfg r t0 none
        (t0 + cfg.wifi_ignore_rssi_seconds) hr hw hnt
      simp only [weakStateAt, if_pos h2, if_neg h1]
      simpa using h
    · have hw : cfg.wifi_ignore_rssi_seconds < t0 + i + 1 - t0 := by omega
      have hnt : t0 + i + 1 -
          ((some (t0 + cfg.wifi_ignore_rssi_seconds + 1)).getD (t0 + i + 1)) ≤
          cfg.wifi_disconnect_seconds := by
        simp only [Option.getD_some]
        omega
      have h := tick_steady_weak_monitor cfg r t0
        (some (t0 + cfg.wifi_ignore_rssi_seconds + 1)) (t0 + i) hr hw hnt
      simp only [weakStateAt, if_neg h2, if_neg h1]
      simpa using h

/-- Closed form of a run of the all-weak scenario while no trigger can yet
have fired: the state follows weakStateAt and each tick contributes only
the pacing sleep (inside the ignore window) or the weak-signal LED
update. -/
lemma weak_scenario_run (cfg : Config) (t0 : ℕ) (r : ℤ)
    (hr : r ≤ cfg.wifi_disconnect_rssi) :
    ∀ i, i ≤ cfg.wifi_ignore_rssi_seconds + cfg.wifi_disconnect_seconds + 1 →
      run cfg (weakStateAt cfg t0 0) (List.replicate i (goodEnv none (some r))) =
        .ok (weakStateAt cfg t0 i,
             (List.range i).map (fun j =>
               if j + 1 ≤ cfg.wifi_ignore_rssi_seconds then [Effect.sleep 1]
               else [Effect.sleep 1, set_led (some r) CLR_WIFI_WEAK_SIGNAL])) := by
  intro i
  induction i with
  | zero => intro _; simp [run]
  | succ k ih =>
    intro hk
    have h1 := ih (by omega)
    have hstep := weak_scenario_step cfg t0 r k hr (by omega)
    have h2 : run cfg (weakStateAt cfg t0 k) [goodEnv none (some r)] =
        .ok (weakStateAt cfg t0 (k + 1),
             [if k + 1 ≤ cfg.wifi_ignore_rssi_seconds then [Effect.sleep 1]
              else [Effect.sleep 1, set_led (some r) CLR_WIFI_WEAK_SIGNAL]]) := by
      simp only [run, hstep]
    rw [List.replicate_succ']
    rw [run_append_ok cfg _ _ _ _ _ _ _ h1 h2]
    rw [List.range_succ]
    simp

/-- The first tick after the weak condition has persisted past the ignore
window and the configured duration: the reconnection cycle fires. -/
lemma weak_scenario_trigger (cfg : Config) (t0 : ℕ) (r : ℤ)
    (hr : r ≤ cfg.wifi_disconnect_rssi) :
    tick cfg (goodEnv none (some r))
      (weakStateAt cfg t0
        (cfg.wifi_ignore_rssi_seconds + cfg.wifi_disconnect_seconds + 1)) =
      .ok (⟨false, true, ⟨true, true⟩, some t0, none,
            t0 + (cfg.wifi_ignore_rssi_seconds + cfg.wifi_disconnect_seconds + 1)
              + 1 + cfg.mqtt_reconnect_timeout⟩,
           [.sleep 1, set_led (some r) CLR_WIFI_WEAK_SIGNAL, .mqttDisconnect,
            .wifiDisconnect, .led (scale CLR_SLEEPING DEFAULT_BRIGHTNESS),
            .sleep cfg.mqtt_reconnect_timeout]) := by
  have h := tick_steady_weak_trigger cfg r t0 (t0 + cfg.wifi_ignore_rssi_seconds + 1)
    (t0 + (cfg.wifi_ignore_rssi_seconds + cfg.wifi_disconnect_seconds + 1))
    hr (by omega) (by omega)
  have hne : ¬ (cfg.wifi_ignore_rssi_seconds + cfg.wifi_disconnect_seconds + 1 ≤
      cfg.wifi_ignore_rssi_seconds) := by omega
  simp only [weakStateAt, if_neg hne]
  exact h

/-- C2 counterexample: with ignore window 1 s and weak-signal duration 1 s,
a link that comes up at time 0 with every sample below the threshold sees
no reconnection cycle during the first three ticks -- in particular neither
at tick ignore + duration = 2 (the claimed trigger tick) nor at tick
1 + ignore + duration = 3 -- while the cycle does fire on tick 4
(= ignore + duration + 2), because both the ignore-window check and the
persistence check use strict comparisons against a one-second-granularity
clock. -/
theorem c2_counterexample :
    (match run ⟨-80, 1, 1, 7, 20⟩ ⟨true, true, ⟨true, true⟩, some 0, none, 0⟩
        (List.replicate 3 (goodEnv none (some (-90)))) with
     | .ok (_, fxs) => fxs.flatten.contains Effect.wifiDisconnect
     | .error _ => true) = false ∧
    (match run ⟨-80, 1, 1, 7, 20⟩ ⟨true, true, ⟨true, true⟩, some 0, none, 0⟩
        (List.replicate 4 (goodEnv none (some (-90)))) with
     | .ok (_, fxs) => fxs.flatten.contains Effect.wifiDisconnect
     | .error _ => false) = true := ⟨rfl, rfl⟩

/-- C2 (amended): in a run where the link comes up at time t0 with the
session connected and every RSSI sample from the start is below the
disconnect threshold, the reconnection cycle triggers exactly once, on tick
ignore-window + weak-signal-duration + 2 (the strict window and persistence
comparisons each cost one extra tick), and at no earlier tick; ticks inside
the ignore window perform no weak-signal monitoring at all -- they emit
nothing beyond the pacing sleep. -/
theorem c2_weak_signal_trigger_timing (cfg : Config) (t0 : ℕ) (r : ℤ)
    (hr : r < cfg.wifi_disconnect_rssi) :
    ∃ s' fxs,
      run cfg ⟨true, true, ⟨true, true⟩, some t0, none, t0⟩
        (List.replicate
          (cfg.wifi_ignore_rssi_seconds + cfg.wifi_disconnect_seconds + 2)
          (goodEnv none (some r))) = .ok (s', fxs) ∧
      fxs.length = cfg.wifi_ignore_rssi_seconds + cfg.wifi_disconnect_seconds + 2 ∧
      (∀ j, ∀ hj : j < fxs.length,
        (Effect.wifiDisconnect ∈ fxs[j] ↔
          j = cfg.wifi_ignore_rssi_seconds + cfg.wifi_disconnect_seconds + 1)) ∧
      (∀ j, ∀ hj : j < fxs.length,
        j < cfg.wifi_ignore_rssi_seconds → fxs[j] = [Effect.sleep 1]) := by
  have hle : r ≤ cfg.wifi_disconnect_rssi := le_of_lt hr
  have h1 := weak_scenario_run cfg t0 r hle
    (cfg.wifi_ignore_rssi_seconds + cfg.wifi_disconnect_seconds + 1) (le_refl _)
  have htr := weak_scenario_trigger cfg t0 r hle
  have h2 : run cfg
      (weakStateAt cfg t0
        (cfg.wifi_ignore_rssi_seconds + cfg.wifi_disconnect_seconds + 1))
      [goodEnv none (some r)] =
      .ok (⟨false, true, ⟨true, true⟩, some t0, none,
            t0 + (cfg.wifi_ignore_rssi_seconds + cfg.wifi_disconnect_seconds + 1)
              + 1 + cfg.mqtt_reconnect_timeout⟩,
           [[.sleep 1, set_led (some r) CLR_WIFI_WEAK_SIGNAL, .mqttDisconnect,
             .wifiDisconnect, .led (scale CLR_SLEEPING DEFAULT_BRIGHTNESS),
             .sleep cfg.mqtt_reconnect_timeout]]) := by
    simp only [run, htr]
  have h3 := run_append_ok cfg _ _ _ _ _ _ _ h1 h2
  rw [← List.replicate_succ'] at h3
  have hinit : weakStateAt cfg t0 0 =
      ⟨true, true, ⟨true, true⟩, some t0, none, t0⟩ := by
    simp [weakStateAt]
  rw [hinit] at h3
  refine ⟨_, _, h3, ?_, ?_, ?_⟩
  · simp
  · intro j hj
    simp only [List.length_append, List.length_map, List.length_range,
      List.length_singleton] at hj
    by_cases hej : j = cfg.wifi_ignore_rssi_seconds + cfg.wifi_disconnect_seconds + 1
    · subst hej
      rw [List.getElem_append_right (by simp)]
      simp
    · have hlt : j < cfg.wifi_ignore_rssi_seconds + cfg.wifi_disconnect_seconds + 1 := by
        omega
      rw [List.getElem_append_left (by simpa using hlt)]
      simp only [List.getElem_map, List.getElem_range]
      constructor
      · intro hmem
        exfalso
        by_cases hw : j + 1 ≤ cfg.wifi_ignore_rssi_seconds <;>
          simp [hw, set_led] at hmem
      · intro he
        exact absurd he hej
  · intro j hj hjG
    have hlt : j < cfg.wifi_ignore_rssi_seconds + cfg.wifi_disconnect_seconds + 1 := by
      omega
    rw [List.getElem_append_left (by simpa using hlt)]
    simp only [List.getElem_map, List.getElem_range]
    rw [if_pos (by omega)]

/-- Witness for c2_weak_signal_trigger_timing with ignore window 1 s, weak
duration 1 s, threshold -80 dBm and a constant -90 dBm sample. -/
theorem c2_witness :
    (-90 : ℤ) < -80 ∧
    ∃ s' fxs,
      run ⟨-80, 1, 1, 7, 20⟩ ⟨true, true, ⟨true, true⟩, some 0, none, 0⟩
        (List.replicate (1 + 1 + 2) (goodEnv none (some (-90)))) = .ok (s', fxs) ∧
      fxs.length = 1 + 1 + 2 ∧
      (∀ j, ∀ hj : j < fxs.length,
        (Effect.wifiDisconnect ∈ fxs[j] ↔ j = 1 + 1 + 1)) ∧
      (∀ j, ∀ hj : j < fxs.length, j < 1 → fxs[j] = [Effect.sleep 1]) :=
  ⟨by decide, c2_weak_signal_trigger_timing ⟨-80, 1, 1, 7, 20⟩ 0 (-90) (by decide)⟩

/-- C3 counterexample: a steady-state tick past the ignore window whose
sample is exactly at the threshold (-80 with threshold -80) does not reset
the weak-signal timer: the code resets only on samples strictly above the
threshold, so the timer keeps its value some 9 instead of becoming
unstarted. -/
theorem c3_counterexample :
    (match tick ⟨-80, 10, 5, 7, 20⟩ (goodEnv none (some (-80)))
        ⟨true, true, ⟨true, true⟩, some 0, some 9, 10⟩ with
     | .ok (s, _) => s.wifi_disconn_rssi_start
     | .error _ => none) = some 9 := rfl

/-- C3 (amended): in steady state a single sample strictly above the
disconnect threshold resets the weak-signal timer to unstarted (a sample
exactly at the threshold does not); consequently, past the ignore window,
the sample sequence weak, weak, weak, strong, weak, weak, weak with the
configured weak-signal duration exceeding three ticks never triggers the
reconnection cycle, where weak means at or below the threshold and strong
means strictly above it. -/
theorem c3_strong_sample_resets_timer :
    (∀ (cfg : Config) (r : ℤ) (ct v : Option ℕ) (n : ℕ),
      cfg.wifi_disconnect_rssi < r →
      tick cfg (goodEnv none (some r)) ⟨true, true, ⟨true, true⟩, ct, v, n⟩ =
        .ok (⟨true, true, ⟨true, true⟩, ct, none, n + 1⟩,
             [.sleep 1, set_led (some r) CLR_ALL_CONNECTED])) ∧
    (∀ (cfg : Config) (w1 w2 w3 rs w4 w5 w6 : ℤ) (c n : ℕ),
      3 < cfg.wifi_disconnect_seconds →
      w1 ≤ cfg.wifi_disconnect_rssi → w2 ≤ cfg.wifi_disconnect_rssi →
      w3 ≤ cfg.wifi_disconnect_rssi → cfg.wifi_disconnect_rssi < rs →
      w4 ≤ cfg.wifi_disconnect_rssi → w5 ≤ cfg.wifi_disconnect_rssi →
      w6 ≤ cfg.wifi_disconnect_rssi →
      cfg.wifi_ignore_rssi_seconds < n + 1 - c →
      ∃ L, run cfg ⟨true, true, ⟨true, true⟩, some c, none, n⟩
          [goodEnv none (some w1), goodEnv none (some w2), goodEnv none (some w3),
           goodEnv none (some rs), goodEnv none (some w4), goodEnv none (some w5),
           goodEnv none (some w6)] =
          .ok (⟨true, true, ⟨true, true⟩, some c, some (n + 4 + 1), n + 7⟩, L) ∧
        Effect.wifiDisconnect ∉ L.flatten) := by
  refine ⟨fun cfg r ct v n hr => tick_steady_strong cfg r ct v n hr, ?_⟩
  intro cfg w1 w2 w3 rs w4 w5 w6 c n hD h1 h2 h3 hs h4 h5 h6 hwnd
  have t1 := tick_steady_weak_monitor cfg w1 c none n h1 (by omega) (by simp)
  have t2 := tick_steady_weak_monitor cfg w2 c (some (n + 1)) (n + 1) h2
    (by omega) (by simp only [Option.getD_some]; omega)
  have t3 := tick_steady_weak_monitor cfg w3 c (some (n + 1)) (n + 1 + 1) h3
    (by omega) (by simp only [Option.getD_some]; omega)
  have t4 := tick_steady_strong cfg rs (some c) (some (n + 1)) (n + 1 + 1 + 1) hs
  have t5 := tick_steady_weak_monitor cfg w4 c none (n + 1 + 1 + 1 + 1) h4
    (by omega) (by simp)
  have t6 := tick_steady_weak_monitor cfg w5 c (some (n + 1 + 1 + 1 + 1 + 1))
    (n + 1 + 1 + 1 + 1 + 1) h5 (by omega) (by simp only [Option.getD_some]; omega)
  have t7 := tick_steady_weak_monitor cfg w6 c (some (n + 1 + 1 + 1 + 1 + 1))
    (n + 1 + 1 + 1 + 1 + 1 + 1) h6 (by omega)
    (by simp only [Option.getD_some]; omega)
  refine ⟨[[.sleep 1, set_led (some w1) CLR_WIFI_WEAK_SIGNAL],
           [.sleep 1, set_led (some w2) CLR_WIFI_WEAK_SIGNAL],
           [.sleep 1, set_led (some w3) CLR_WIFI_WEAK_SIGNAL],
           [.sleep 1, set_led (some rs) CLR_ALL_CONNECTED],
           [.sleep 1, set_led (some w4) CLR_WIFI_WEAK_SIGNAL],
           [.sleep 1, set_led (some w5) CLR_WIFI_WEAK_SIGNAL],
           [.sleep 1, set_led (some w6) CLR_WIFI_WEAK_SIGNAL]], ?_, ?_⟩
  · simp only [run, t1, Option.getD_none, Option.getD_some, t2, t3, t4, t5, t6, t7]
  · simp [set_led]

/-- Witness for c3_strong_sample_resets_timer: threshold -80 dBm, duration
4 s, ignore window 5 s; a strong -70 dBm sample resets the timer, and the
sequence -90,-90,-90,-70,-90,-90,-90 past the window never disconnects. -/
theorem c3_witness :
    ((-80 : ℤ) < -70 ∧
     tick ⟨-80, 4, 5, 7, 20⟩ (goodEnv none (some (-70)))
         ⟨true, true, ⟨true, true⟩, some 0, some 3, 9⟩ =
       .ok (⟨true, true, ⟨true, true⟩, some 0, none, 9 + 1⟩,
            [.sleep 1, set_led (some (-70)) CLR_ALL_CONNECTED])) ∧
    ((3 : ℕ) < 4 ∧ (-90 : ℤ) ≤ -80 ∧ (-80 : ℤ) < -70 ∧ (5 : ℕ) < 10 + 1 - 0 ∧
     ∃ L, run ⟨-80, 4, 5, 7, 20⟩ ⟨true, true, ⟨true, true⟩, some 0, none, 10⟩
         [goodEnv none (some (-90)), goodEnv none (some (-90)),
          goodEnv none (some (-90)), goodEnv none (some (-70)),
          goodEnv none (some (-90)), goodEnv none (some (-90)),
          goodEnv none (some (-90))] =
         .ok (⟨true, true, ⟨true, true⟩, some 0, some (10 + 4 + 1), 10 + 7⟩, L) ∧
       Effect.wifiDisconnect ∉ L.flatten) :=
  ⟨⟨by decide,
    c3_strong_sample_resets_timer.1 ⟨-80, 4, 5, 7, 20⟩ (-70) (some 0) (some 3) 9
      (by decide)⟩,
   ⟨by decide, by decide, by decide, by decide,
    c3_strong_sample_resets_timer.2 ⟨-80, 4, 5, 7, 20⟩ (-90) (-90) (-90) (-70)
      (-90) (-90) (-90) 0 10 (by decide) (by decide) (by decide) (by decide)
      (by decide) (by decide) (by decide) (by decide) (by decide)⟩⟩

end Esp32Presence
